import Mathlib

/-
Verification of the shape abstraction and path-conversion protocol of the
kurbo repository (src/src/shape.rs).

The repository source under src/ contains exactly one file: the `Shape`
trait with its default methods and the blanket implementation of `Shape`
for `&'a T`.  We embed the trait shallowly as a Lean structure whose
fields are the trait's methods; a value of `Shape S` is one concrete
implementation of the trait for carrier type `S`.  Default method bodies
of the trait become default field values of the structure, exactly
mirroring the Rust default bodies.  Rust `f64` is modelled as `ℚ` (exact
arithmetic; every property verified here is structural, about which
function is called with which arguments, and does not depend on rounding).
Rust iterators over `PathEl` are modelled as finite lists: producing an
iterator corresponds to producing the list of elements a full traversal
would yield.

Vocabulary types (`Point`, `Line`, `Rect`, `RoundedRect`, `Circle`,
`PathEl`, `BezPath`) and the free function `segments` are consumed by
shape.rs but defined elsewhere in the repository; they are modelled from
the spec where marked.
-/

namespace Kurbo

/-- A 2-D point, two coordinates. -/
structure Point where
  x : ℚ
  y : ℚ
deriving DecidableEq, Repr

/-- A line between two points. -/
structure Line where
  p0 : Point
  p1 : Point
deriving DecidableEq, Repr

/-- An axis-aligned rectangle given by two opposite corners. -/
structure Rect where
  x0 : ℚ
  y0 : ℚ
  x1 : ℚ
  y1 : ℚ
deriving DecidableEq, Repr

/-- Modelled from the spec: a rounded rectangle carries the underlying
rectangle plus corner radii; its internal math is external to the core
(spec section 1 excludes the concrete shape types' internals). -/
structure RoundedRect where
  rect : Rect
  radius : ℚ
deriving DecidableEq, Repr

/-- A circle given by center and radius. -/
structure Circle where
  center : Point
  radius : ℚ
deriving DecidableEq, Repr

/-- One instruction of an outline: move-to, line-to, quadratic-to,
cubic-to or close.  Mirrors the `PathEl` enum consumed by shape.rs. -/
inductive PathEl where
  | MoveTo (p : Point)
  | LineTo (p : Point)
  | QuadTo (p1 p2 : Point)
  | CurveTo (p1 p2 p3 : Point)
  | ClosePath
deriving DecidableEq, Repr

/-- A retained Bézier path: an owned sequence of path elements.  Mirrors
the `BezPath` wrapper around a vector of `PathEl`. -/
structure BezPath where
  elements : List PathEl
deriving DecidableEq, Repr

/-- Modelled from the spec: collecting an element sequence into an owned
`BezPath` (Rust `collect`, the `FromIterator` implementation, which lives
outside src/) "consumes the element sequence eagerly into an owned,
retained outline representation": the path holds exactly the collected
elements in order. -/
def BezPath.collect (els : List PathEl) : BezPath := ⟨els⟩

/-- Helper for `segments`: accumulates the current run (reversed) while
scanning the remaining elements, closing a run at each close instruction. -/
def segmentsAux : List PathEl → List PathEl → List (List PathEl)
  | run, [] => if run.isEmpty then [] else [run.reverse]
  | run, PathEl.ClosePath :: rest =>
      (run.reverse ++ [PathEl.ClosePath]) :: segmentsAux [] rest
  | run, e :: rest => segmentsAux (e :: run) rest

/-- Modelled from the spec: the free function `segments` (defined outside
src/, consumed by the default `path_segments`) groups an element sequence
into maximal contiguous curve runs, a "path segment" being "a maximal run
of elements between closes". -/
def segments (els : List PathEl) : List (List PathEl) :=
  segmentsAux [] els

/-- Shallow embedding of the `Shape` trait of src/src/shape.rs for a
carrier type `S`.  Required methods are fields without defaults; the
trait's default method bodies are the default field values, verbatim:
`to_path` collects `path_elements`, `into_path` calls `to_path`,
`path_segments` applies `segments` to `path_elements`, and every
identity-recovery probe returns `none`.  As in Rust, a default body that
calls another method uses the implementation's (possibly overridden)
version of that method. -/
structure Shape (S : Type) where
  pathElements : S → ℚ → List PathEl
  area : S → ℚ
  perimeter : S → ℚ → ℚ
  winding : S → Point → Int
  boundingBox : S → Rect
  toPath : S → ℚ → BezPath :=
    fun s tolerance => BezPath.collect (pathElements s tolerance)
  intoPath : S → ℚ → BezPath :=
    fun s tolerance => toPath s tolerance
  pathSegments : S → ℚ → List (List PathEl) :=
    fun s tolerance => segments (pathElements s tolerance)
  asLine : S → Option Line := fun _ => none
  asRect : S → Option Rect := fun _ => none
  asRoundedRect : S → Option RoundedRect := fun _ => none
  asCircle : S → Option Circle := fun _ => none
  asPathSlice : S → Option (List PathEl) := fun _ => none

/-- An implementation of the trait that provides only the required
methods and inherits every default body of src/src/shape.rs. -/
def Shape.ofRequired {S : Type} (pe : S → ℚ → List PathEl) (a : S → ℚ)
    (per : S → ℚ → ℚ) (w : S → Point → Int) (bb : S → Rect) : Shape S :=
  { pathElements := pe, area := a, perimeter := per, winding := w,
    boundingBox := bb }

/-- An implementation that additionally overrides `to_path` (keeping the
default `into_path`, whose body calls the overridden `to_path`). -/
def Shape.withToPath {S : Type} (pe : S → ℚ → List PathEl) (a : S → ℚ)
    (per : S → ℚ → ℚ) (w : S → Point → Int) (bb : S → Rect)
    (tp : S → ℚ → BezPath) : Shape S :=
  { pathElements := pe, area := a, perimeter := per, winding := w,
    boundingBox := bb, toPath := tp }

/-- An implementation that additionally overrides exactly one
identity-recovery probe, `as_rect`, leaving the other probes at their
defaults — the shape of every primitive implementation the spec
describes ("overridden only by the primitive types that can answer"). -/
def Shape.withAsRect {S : Type} (pe : S → ℚ → List PathEl) (a : S → ℚ)
    (per : S → ℚ → ℚ) (w : S → Point → Int) (bb : S → Rect)
    (ar : S → Option Rect) : Shape S :=
  { pathElements := pe, area := a, perimeter := per, winding := w,
    boundingBox := bb, asRect := ar }

/-- Embedding of the blanket `impl Shape for &'a T` of src/src/shape.rs.
A shared reference to an immutable value is modelled by the value itself,
so the view's implementation has the same carrier.  Exactly the methods
the blanket impl overrides are forwarded: `path_elements`, `to_path`,
`path_segments`, `area`, `perimeter`, `winding`, `bounding_box` and the
five probes.  `into_path` is NOT overridden by the blanket impl, so the
view inherits the trait's default body for it. -/
def refShape {S : Type} (impl : Shape S) : Shape S where
  pathElements := impl.pathElements
  toPath := impl.toPath
  pathSegments := impl.pathSegments
  area := impl.area
  perimeter := impl.perimeter
  winding := impl.winding
  boundingBox := impl.boundingBox
  asCircle := impl.asCircle
  asLine := impl.asLine
  asRect := impl.asRect
  asRoundedRect := impl.asRoundedRect
  asPathSlice := impl.asPathSlice

/-- Elements tracing a rectangle: a move to one corner, three lines and a
close.  The tolerance is ignored — a rectangle is polygonal, so no
curve approximation occurs. -/
def rectElements (r : Rect) (_tolerance : ℚ) : List PathEl :=
  [PathEl.MoveTo ⟨r.x0, r.y0⟩, PathEl.LineTo ⟨r.x1, r.y0⟩,
   PathEl.LineTo ⟨r.x1, r.y1⟩, PathEl.LineTo ⟨r.x0, r.y1⟩,
   PathEl.ClosePath]

/-- Signed area of a rectangle, width times height. -/
def rectArea (r : Rect) : ℚ := (r.x1 - r.x0) * (r.y1 - r.y0)

/-- Perimeter of a rectangle; exact, so the accuracy argument is unused. -/
def rectPerimeter (r : Rect) (_accuracy : ℚ) : ℚ :=
  2 * ((r.x1 - r.x0) + (r.y1 - r.y0))

/-- Winding number of a point with respect to a rectangle: 1 strictly
inside, 0 outside (non-degenerate, corners sorted). -/
def rectWinding (r : Rect) (p : Point) : Int :=
  if r.x0 < p.x ∧ p.x < r.x1 ∧ r.y0 < p.y ∧ p.y < r.y1 then 1 else 0

/-- The bounding box of a rectangle is the rectangle itself. -/
def rectBoundingBox (r : Rect) : Rect := r

/-- Modelled from the spec: the concrete `Shape` implementation for
`Rect` (the concrete shape types are external collaborators, not under
src/).  It provides the required methods, inherits every default
conversion body, and overrides exactly one identity-recovery probe,
`as_rect`, answering with its own exact bounds (spec scenario 2). -/
def rectShape : Shape Rect :=
  Shape.withAsRect rectElements rectArea rectPerimeter rectWinding
    rectBoundingBox (fun r => some r)

/-- Modelled from the spec: the concrete `Shape` implementation for
`BezPath`, whose representation already is the retained outline: its
element sequence is its stored elements, `to_path` produces a value-equal
copy (a clone), `into_path` "degenerates to an identity move rather than
a copy", and `as_path_slice` exposes the contiguous element storage.
The measurement operations (area, perimeter, winding, bounding box) are
parameters: their math is external to this core (spec section 1). -/
def bezPathShape (a : BezPath → ℚ) (per : BezPath → ℚ → ℚ)
    (w : BezPath → Point → Int) (bb : BezPath → Rect) : Shape BezPath :=
  { pathElements := fun p _ => p.elements
    area := a
    perimeter := per
    winding := w
    boundingBox := bb
    toPath := fun p _ => p
    intoPath := fun p _ => p
    asPathSlice := fun p => some p.elements }

/-- Probing `as_line` through a shared borrow, in explicit state-passing
form: the probe returns its answer together with the (unchanged) shape
value, mirroring `fn as_line(&self) -> Option<Line>`, which cannot
mutate the shape. -/
def probeAsLine {S : Type} (impl : Shape S) (s : S) : Option Line × S :=
  (impl.asLine s, s)

/-- Probing `as_rect` in state-passing form; see `probeAsLine`. -/
def probeAsRect {S : Type} (impl : Shape S) (s : S) : Option Rect × S :=
  (impl.asRect s, s)

/-- Probing `as_rounded_rect` in state-passing form; see `probeAsLine`. -/
def probeAsRoundedRect {S : Type} (impl : Shape S) (s : S) :
    Option RoundedRect × S :=
  (impl.asRoundedRect s, s)

/-- Probing `as_circle` in state-passing form; see `probeAsLine`. -/
def probeAsCircle {S : Type} (impl : Shape S) (s : S) : Option Circle × S :=
  (impl.asCircle s, s)

/-- Probing `as_path_slice` in state-passing form; see `probeAsLine`. -/
def probeAsPathSlice {S : Type} (impl : Shape S) (s : S) :
    Option (List PathEl) × S :=
  (impl.asPathSlice s, s)

/-- A sample rectangle, corners (0,0)-(4,2) as in spec scenario 2. -/
def sampleRect : Rect := ⟨0, 0, 4, 2⟩

/-- A sample retained path: a move, a line and a close. -/
def samplePath : BezPath :=
  ⟨[PathEl.MoveTo ⟨0, 0⟩, PathEl.LineTo ⟨1, 0⟩, PathEl.ClosePath]⟩

/-- C1: Borrowed-view equivalence.  For every shape implementation and
every shape value, each operation invoked through the borrowed view
(`impl Shape for &'a T`, embedded as `refShape`) returns a result equal
to the operation invoked on the shape directly: `area`, `perimeter` at
every accuracy, `winding` at every point, `bounding_box`, and the element
sequence at every tolerance, element-wise.  All operations are total, so
the view introduces no additional failure modes. -/
theorem borrowed_view_equivalence (S : Type) (impl : Shape S) (s : S)
    (accuracy tolerance : ℚ) (p : Point) :
    (refShape impl).area s = impl.area s ∧
    (refShape impl).perimeter s accuracy = impl.perimeter s accuracy ∧
    (refShape impl).winding s p = impl.winding s p ∧
    (refShape impl).boundingBox s = impl.boundingBox s ∧
    (refShape impl).pathElements s tolerance = impl.pathElements s tolerance :=
  ⟨rfl, rfl, rfl, rfl, rfl⟩

/-- C5: every identity-recovery probe defaults to "not available": an
implementation providing only the required methods (and hence not
overriding any probe) answers `none` to `as_line`, `as_rect`,
`as_rounded_rect`, `as_circle` and `as_path_slice` on every shape
value. -/
theorem default_probes_none (S : Type) (pe : S → ℚ → List PathEl)
    (a : S → ℚ) (per : S → ℚ → ℚ) (w : S → Point → Int) (bb : S → Rect)
    (s : S) :
    (Shape.ofRequired pe a per w bb).asLine s = none ∧
    (Shape.ofRequired pe a per w bb).asRect s = none ∧
    (Shape.ofRequired pe a per w bb).asRoundedRect s = none ∧
    (Shape.ofRequired pe a per w bb).asCircle s = none ∧
    (Shape.ofRequired pe a per w bb).asPathSlice s = none :=
  ⟨rfl, rfl, rfl, rfl, rfl⟩

/-- C9: the identity-recovery probes are pure and effect-free.  In
state-passing form each probe returns the shape value unchanged, and
every subsequent operation computed on the shape value coming out of a
probe equals the same operation computed on the original value — a
program that omits the probes computes identical results. -/
theorem probes_pure_and_effect_free (S : Type) (impl : Shape S) (s : S)
    (p : Point) (tolerance accuracy : ℚ) :
    (probeAsLine impl s).2 = s ∧
    (probeAsRect impl s).2 = s ∧
    (probeAsRoundedRect impl s).2 = s ∧
    (probeAsCircle impl s).2 = s ∧
    (probeAsPathSlice impl s).2 = s ∧
    impl.pathElements (probeAsRect impl s).2 tolerance
      = impl.pathElements s tolerance ∧
    impl.toPath (probeAsLine impl s).2 tolerance = impl.toPath s tolerance ∧
    impl.area (probeAsCircle impl s).2 = impl.area s ∧
    impl.perimeter (probeAsRoundedRect impl s).2 accuracy
      = impl.perimeter s accuracy ∧
    impl.winding (probeAsPathSlice impl s).2 p = impl.winding s p ∧
    impl.boundingBox (probeAsRect impl s).2 = impl.boundingBox s :=
  ⟨rfl, rfl, rfl, rfl, rfl, rfl, rfl, rfl, rfl, rfl, rfl⟩

/-- C10: the blanket implementation for references does not override
`into_path`, so `into_path` on the borrowed view is exactly `to_path` of
the referenced shape — for every implementation, and in particular even
when the referenced shape is a `BezPath`, where owned `into_path` would
be an identity move: through the view it goes through `to_path` (a
copy), whose elements equal the referenced path's elements, and the
referenced value itself is unchanged. -/
theorem ref_into_path_is_to_path (S : Type) (impl : Shape S) (s : S)
    (t : ℚ) (a : BezPath → ℚ) (per : BezPath → ℚ → ℚ)
    (w : BezPath → Point → Int) (bb : BezPath → Rect) (p : BezPath) :
    (refShape impl).intoPath s t = impl.toPath s t ∧
    (refShape (bezPathShape a per w bb)).intoPath p t
      = (bezPathShape a per w bb).toPath p t ∧
    ((refShape (bezPathShape a per w bb)).intoPath p t).elements
      = p.elements :=
  ⟨rfl, rfl, rfl⟩

/-- C2: `into_path` and `to_path` agree element-wise at every
tolerance t ≥ 0.  The default `into_path` body is exactly a call to the
implementation's `to_path` — both for implementations using the default
`to_path` and for implementations overriding it — and for the one shape
whose representation already is a `BezPath` the identity move of
`into_path` still yields the same elements as the copying `to_path`. -/
theorem into_path_eq_to_path (S : Type) (pe : S → ℚ → List PathEl)
    (a : S → ℚ) (per : S → ℚ → ℚ) (w : S → Point → Int) (bb : S → Rect)
    (tp : S → ℚ → BezPath) (s : S) (t : ℚ) (pa : BezPath → ℚ)
    (pper : BezPath → ℚ → ℚ) (pw : BezPath → Point → Int)
    (pbb : BezPath → Rect) (p : BezPath) (ht : 0 ≤ t) :
    (Shape.ofRequired pe a per w bb).intoPath s t
      = (Shape.ofRequired pe a per w bb).toPath s t ∧
    (Shape.withToPath pe a per w bb tp).intoPath s t = tp s t ∧
    ((bezPathShape pa pper pw pbb).intoPath p t).elements
      = ((bezPathShape pa pper pw pbb).toPath p t).elements ∧
    (bezPathShape pa pper pw pbb).intoPath p t = p :=
  ⟨rfl, rfl, rfl, rfl⟩

/-- Witness for C2 at tolerance 1/10, the sample rectangle data and the
sample path. -/
theorem into_path_eq_to_path_witness :
    (0 : ℚ) ≤ 1 / 10 ∧
    ((Shape.ofRequired rectElements rectArea rectPerimeter rectWinding
        rectBoundingBox).intoPath sampleRect (1 / 10)
      = (Shape.ofRequired rectElements rectArea rectPerimeter rectWinding
          rectBoundingBox).toPath sampleRect (1 / 10) ∧
    (Shape.withToPath rectElements rectArea rectPerimeter rectWinding
        rectBoundingBox (fun r t => BezPath.collect (rectElements r t))
        ).intoPath sampleRect (1 / 10)
      = BezPath.collect (rectElements sampleRect (1 / 10)) ∧
    ((bezPathShape (fun _ => 0) (fun _ _ => 0) (fun _ _ => 0)
        (fun _ => sampleRect)).intoPath samplePath (1 / 10)).elements
      = ((bezPathShape (fun _ => 0) (fun _ _ => 0) (fun _ _ => 0)
          (fun _ => sampleRect)).toPath samplePath (1 / 10)).elements ∧
    (bezPathShape (fun _ => 0) (fun _ _ => 0) (fun _ _ => 0)
        (fun _ => sampleRect)).intoPath samplePath (1 / 10) = samplePath) :=
  ⟨by norm_num,
   into_path_eq_to_path Rect rectElements rectArea rectPerimeter
     rectWinding rectBoundingBox
     (fun r t => BezPath.collect (rectElements r t)) sampleRect (1 / 10)
     (fun _ => 0) (fun _ _ => 0) (fun _ _ => 0) (fun _ => sampleRect)
     samplePath (by norm_num)⟩

/-- C3: the default `to_path` is the eager collection of the element
sequence: at every tolerance t ≥ 0 the owned `BezPath` it returns is
exactly `collect` of `path_elements`, and its stored elements are
precisely the yielded elements, in order, nothing added or dropped. -/
theorem default_to_path_collects (S : Type) (pe : S → ℚ → List PathEl)
    (a : S → ℚ) (per : S → ℚ → ℚ) (w : S → Point → Int) (bb : S → Rect)
    (s : S) (t : ℚ) (ht : 0 ≤ t) :
    (Shape.ofRequired pe a per w bb).toPath s t = BezPath.collect (pe s t) ∧
    ((Shape.ofRequired pe a per w bb).toPath s t).elements
      = (Shape.ofRequired pe a per w bb).pathElements s t :=
  ⟨rfl, rfl⟩

/-- Witness for C3 at tolerance 1/10 and the sample rectangle data. -/
theorem default_to_path_collects_witness :
    (0 : ℚ) ≤ 1 / 10 ∧
    ((Shape.ofRequired rectElements rectArea rectPerimeter rectWinding
        rectBoundingBox).toPath sampleRect (1 / 10)
      = BezPath.collect (rectElements sampleRect (1 / 10)) ∧
    ((Shape.ofRequired rectElements rectArea rectPerimeter rectWinding
        rectBoundingBox).toPath sampleRect (1 / 10)).elements
      = (Shape.ofRequired rectElements rectArea rectPerimeter rectWinding
          rectBoundingBox).pathElements sampleRect (1 / 10)) :=
  ⟨by norm_num,
   default_to_path_collects Rect rectElements rectArea rectPerimeter
     rectWinding rectBoundingBox sampleRect (1 / 10) (by norm_num)⟩

/-- C4: the default `path_segments` is exactly the `segments` grouping
applied to the element sequence, and it is derived from the element
sequence and from nothing else: two implementations whose element
sequences agree (at possibly different shape values and tolerances)
produce equal segment sequences. -/
theorem default_path_segments_groups (S T : Type)
    (pe : S → ℚ → List PathEl) (a : S → ℚ) (per : S → ℚ → ℚ)
    (w : S → Point → Int) (bb : S → Rect) (pe' : T → ℚ → List PathEl)
    (a' : T → ℚ) (per' : T → ℚ → ℚ) (w' : T → Point → Int)
    (bb' : T → Rect) (s : S) (s' : T) (t t' : ℚ) (ht : 0 ≤ t)
    (hsame : pe s t = pe' s' t') :
    (Shape.ofRequired pe a per w bb).pathSegments s t
      = segments ((Shape.ofRequired pe a per w bb).pathElements s t) ∧
    (Shape.ofRequired pe a per w bb).pathSegments s t
      = (Shape.ofRequired pe' a' per' w' bb').pathSegments s' t' :=
  ⟨rfl, congrArg segments hsame⟩

/-- Witness for C4: the sample rectangle's element sequence is
tolerance-independent, so the implementations at tolerances 1/10 and 2
yield identical element sequences and hence identical segmentations. -/
theorem default_path_segments_groups_witness :
    (0 : ℚ) ≤ 1 / 10 ∧
    ((Shape.ofRequired rectElements rectArea rectPerimeter rectWinding
        rectBoundingBox).pathSegments sampleRect (1 / 10)
      = segments ((Shape.ofRequired rectElements rectArea rectPerimeter
          rectWinding rectBoundingBox).pathElements sampleRect (1 / 10)) ∧
    (Shape.ofRequired rectElements rectArea rectPerimeter rectWinding
        rectBoundingBox).pathSegments sampleRect (1 / 10)
      = (Shape.ofRequired rectElements rectArea rectPerimeter rectWinding
          rectBoundingBox).pathSegments sampleRect 2) :=
  ⟨by norm_num,
   default_path_segments_groups Rect Rect rectElements rectArea
     rectPerimeter rectWinding rectBoundingBox rectElements rectArea
     rectPerimeter rectWinding rectBoundingBox sampleRect sampleRect
     (1 / 10) 2 (by norm_num) rfl⟩

/-- C6: identity recovery is deterministic and mutually exclusive for an
implementation that opts into exactly one probe, as every primitive
does: if `as_rect` answers `some r`, asking again yields the same
`some r`, and `as_line`, `as_circle` and `as_rounded_rect` on the same
shape value all answer `none`. -/
theorem identity_recovery_exclusive (S : Type) (pe : S → ℚ → List PathEl)
    (a : S → ℚ) (per : S → ℚ → ℚ) (w : S → Point → Int) (bb : S → Rect)
    (ar : S → Option Rect) (s : S) (r : Rect)
    (h : (Shape.withAsRect pe a per w bb ar).asRect s = some r) :
    (Shape.withAsRect pe a per w bb ar).asRect s = some r ∧
    (Shape.withAsRect pe a per w bb ar).asLine s = none ∧
    (Shape.withAsRect pe a per w bb ar).asCircle s = none ∧
    (Shape.withAsRect pe a per w bb ar).asRoundedRect s = none :=
  ⟨h, rfl, rfl, rfl⟩

/-- Witness for C6: the modelled `Rect` implementation answers `as_rect`
with the sample rectangle and declines the other probes. -/
theorem identity_recovery_exclusive_witness :
    rectShape.asRect sampleRect = some sampleRect ∧
    rectShape.asLine sampleRect = none ∧
    rectShape.asCircle sampleRect = none ∧
    rectShape.asRoundedRect sampleRect = none :=
  identity_recovery_exclusive Rect rectElements rectArea rectPerimeter
    rectWinding rectBoundingBox (fun r => some r) sampleRect sampleRect rfl

/-- C7 counterexample: a negative tolerance does not fail loudly.  At
tolerance −1 the conversion operations on the modelled rectangle return
the very same ordinary values as at the valid tolerance 1/10, and
`perimeter` at accuracy −1 returns the ordinary exact answer 12 — the
negative argument is silently accepted, with no assertion and no error
value anywhere on the path. -/
theorem negative_tolerance_counterexample :
    rectShape.toPath sampleRect (-1)
      = BezPath.collect (rectElements sampleRect (-1)) ∧
    rectShape.pathElements sampleRect (-1)
      = rectShape.pathElements sampleRect (1 / 10) ∧
    rectShape.pathSegments sampleRect (-1)
      = rectShape.pathSegments sampleRect (1 / 10) ∧
    rectShape.perimeter sampleRect (-1) = 12 :=
  ⟨rfl, rfl, rfl, by norm_num [rectShape, Shape.withAsRect, rectPerimeter,
    sampleRect]⟩

/-- C7 amended: negative tolerances and accuracies are not validated.
The trait's default method bodies contain no check: for every t < 0 they
compute exactly the same expressions as for non-negative t — `to_path`
still collects the element sequence, `into_path` still equals it,
`path_segments` still groups it, and `perimeter` still returns the
implementation's value — so a negative argument is silently passed
through, never rejected. -/
theorem negative_tolerance_silently_accepted (S : Type)
    (pe : S → ℚ → List PathEl) (a : S → ℚ) (per : S → ℚ → ℚ)
    (w : S → Point → Int) (bb : S → Rect) (s : S) (t : ℚ) (ht : t < 0) :
    (Shape.ofRequired pe a per w bb).toPath s t = BezPath.collect (pe s t) ∧
    (Shape.ofRequired pe a per w bb).intoPath s t
      = BezPath.collect (pe s t) ∧
    (Shape.ofRequired pe a per w bb).pathSegments s t = segments (pe s t) ∧
    (Shape.ofRequired pe a per w bb).perimeter s t = per s t :=
  ⟨rfl, rfl, rfl, rfl⟩

/-- Witness for the amended C7 at tolerance −1 and the sample rectangle
data. -/
theorem negative_tolerance_silently_accepted_witness :
    (-1 : ℚ) < 0 ∧
    ((Shape.ofRequired rectElements rectArea rectPerimeter rectWinding
        rectBoundingBox).toPath sampleRect (-1)
      = BezPath.collect (rectElements sampleRect (-1)) ∧
    (Shape.ofRequired rectElements rectArea rectPerimeter rectWinding
        rectBoundingBox).intoPath sampleRect (-1)
      = BezPath.collect (rectElements sampleRect (-1)) ∧
    (Shape.ofRequired rectElements rectArea rectPerimeter rectWinding
        rectBoundingBox).pathSegments sampleRect (-1)
      = segments (rectElements sampleRect (-1)) ∧
    (Shape.ofRequired rectElements rectArea rectPerimeter rectWinding
        rectBoundingBox).perimeter sampleRect (-1)
      = rectPerimeter sampleRect (-1)) :=
  ⟨by norm_num,
   negative_tolerance_silently_accepted Rect rectElements rectArea
     rectPerimeter rectWinding rectBoundingBox sampleRect (-1)
     (by norm_num)⟩

/-- C8: for every tolerance t ≥ 0, including t = 0, the element sequence
is finite: the modelled rectangle yields exactly five elements and a
modelled retained path yields exactly its stored elements, at every such
tolerance.  Each call computes the sequence afresh from the shape value
and the tolerance alone — it equals the characterizing expression, so a
repeated call yields an element-wise equal sequence. -/
theorem path_elements_finite (r : Rect) (pa : BezPath → ℚ)
    (pper : BezPath → ℚ → ℚ) (pw : BezPath → Point → Int)
    (pbb : BezPath → Rect) (p : BezPath) (t : ℚ) (ht : 0 ≤ t) :
    (rectShape.pathElements r t).length = 5 ∧
    rectShape.pathElements r t = rectElements r t ∧
    ((bezPathShape pa pper pw pbb).pathElements p t).length
      = p.elements.length ∧
    (bezPathShape pa pper pw pbb).pathElements p t = p.elements :=
  ⟨rfl, rfl, rfl, rfl⟩

/-- Witness for C8 at tolerance 0, the boundary case the claim singles
out. -/
theorem path_elements_finite_witness :
    (0 : ℚ) ≤ 0 ∧
    ((rectShape.pathElements sampleRect 0).length = 5 ∧
    rectShape.pathElements sampleRect 0 = rectElements sampleRect 0 ∧
    ((bezPathShape (fun _ => 0) (fun _ _ => 0) (fun _ _ => 0)
        (fun _ => sampleRect)).pathElements samplePath 0).length
      = samplePath.elements.length ∧
    (bezPathShape (fun _ => 0) (fun _ _ => 0) (fun _ _ => 0)
        (fun _ => sampleRect)).pathElements samplePath 0
      = samplePath.elements) :=
  ⟨le_refl 0,
   path_elements_finite sampleRect (fun _ => 0) (fun _ _ => 0)
     (fun _ _ => 0) (fun _ => sampleRect) samplePath 0 (le_refl 0)⟩

end Kurbo
